import Mathlib

/-!
Shallow embedding of the `fetch-gql` library core (src/src/index.ts):
the `GraphQLResponse` result container with its combinators
(`ok`, `err`, `mapOk`, `mapErr`, `andThen`, `match`), and the
response-classification part of the resolution pipeline
(`getResponseJson` and the tail of `query`), together with theorems
checking the specification claims against it.

JavaScript dynamic values and their truthiness are modelled explicitly
by `JSValue` / `JSValue.truthy`, because the source classifies the
response envelope with truthiness tests (`data || errors`, `if (data)`,
`if (errors)`, `mappedError ? mappedError : errs`).
-/

namespace FetchGql

/-- Model of a JavaScript runtime value, as far as the pipeline inspects
one: the classification code only ever asks for truthiness and for
`Array.isArray`, and otherwise passes values through opaquely.
`undefined` is included because a destructured missing field is
`undefined`. Numbers are modelled as integers (no claim involves
fractional values or NaN). -/
inductive JSValue where
  | undefined : JSValue
  | null : JSValue
  | bool : Bool → JSValue
  | num : Int → JSValue
  | str : String → JSValue
  | arr : List JSValue → JSValue
  | obj : List (String × JSValue) → JSValue
deriving Repr

/-- JavaScript truthiness: `undefined`, `null`, `false`, `0` and `""`
are falsy; every other value — including an empty array `[]` and an
empty object — is truthy. -/
def JSValue.truthy : JSValue → Bool
  | .undefined => false
  | .null => false
  | .bool b => b
  | .num n => n != 0
  | .str s => s != ""
  | .arr _ => true
  | .obj _ => true

/-- JavaScript `Array.isArray`. -/
def JSValue.isArray : JSValue → Bool
  | .arr _ => true
  | _ => false

/-- The result container `GraphQLResponse<TData, TError>`: a tagged
union of `Ok(data)` and `Err(errors)`. The source represents the tag
with the complementary `isOk`/`isErr` booleans baked into the object
literals built by `ok` and `err`; the inductive captures exactly those
two construction sites. -/
inductive GraphQLResponse (TData TError : Type) where
  | Ok : TData → GraphQLResponse TData TError
  | Err : List TError → GraphQLResponse TData TError
deriving Repr

/-- Argument of `err` in the source, typed `TError | TError[]`:
either a single error value or a sequence of them. -/
def ErrInput (TError : Type) : Type := TError ⊕ List TError

/-- Normalization performed by `err`:
`const errors = Array.isArray(error) ? error : [error]` — a single
(non-array) value is wrapped into a one-element sequence, an array is
taken as-is. -/
def normalizeErr {TError : Type} : ErrInput TError → List TError
  | .inl e => [e]
  | .inr es => es

/-- Factory `ok(data)` from the source: builds the `Ok` variant. -/
def ok {TData TError : Type} (data : TData) : GraphQLResponse TData TError :=
  .Ok data

/-- Factory `err(error)` from the source: normalizes its
`TError | TError[]` argument and builds the `Err` variant. -/
def err {TData TError : Type} (e : ErrInput TError) : GraphQLResponse TData TError :=
  .Err (normalizeErr e)

/-- Observer `isOk` of the container. -/
def isOk {TData TError : Type} : GraphQLResponse TData TError → Bool
  | .Ok _ => true
  | .Err _ => false

/-- Observer `isErr` of the container. -/
def isErr {TData TError : Type} : GraphQLResponse TData TError → Bool
  | .Ok _ => false
  | .Err _ => true

/-- Operation `match(config)` of the container: dispatches to the `ok`
branch with the data on `Ok`, and to the `err` branch with the error
sequence on `Err`, returning that branch's result. (Named `matchWith`
because `match` is a Lean keyword.) -/
def matchWith {TData TError T : Type} (okFn : TData → T) (errFn : List TError → T) :
    GraphQLResponse TData TError → T
  | .Ok d => okFn d
  | .Err es => errFn es

/-- Operation `mapOk(mapFn)`: on `Ok(data)` the source returns
`ok(mapFn(data))`; on `Err` the source error object returns
`err(errors)` with its own (already normalized) error array,
never invoking the mapping function. -/
def mapOk {TData TError T : Type} (mapFn : TData → T) :
    GraphQLResponse TData TError → GraphQLResponse T TError
  | .Ok d => ok (mapFn d)
  | .Err es => err (.inr es)

/-- Operation `mapErr(mapFn)`: on `Err(errors)` the source returns
`err(mapFn(errors))`, so the result of `mapFn` goes through the
`err` normalization (a single value becomes a one-element sequence,
an array is used as-is) — hence the `ErrInput` codomain; on
`Ok(data)` the source returns `ok(data)` without invoking `mapFn`. -/
def mapErr {TData TError T : Type} (mapFn : List TError → ErrInput T) :
    GraphQLResponse TData TError → GraphQLResponse TData T
  | .Ok d => ok d
  | .Err es => err (mapFn es)

/-- The two calling conventions of `andThen`: a plain dependent action
(`AndThenConfig`), or an `action`/`mapErr` record (`AndThenMapConfig`).
The source disambiguates them structurally (`isAndThenMapConfig` checks
for a `mapErr` field); the sum type captures the same two shapes.
Promises are modelled as already-awaited pure values, since every
`await` in the source is a plain sequential suspension. -/
inductive AndThenArg (T E TData TError : Type) where
  | fn : (TData → GraphQLResponse T TError) → AndThenArg T E TData TError
  | mapCfg : (TData → GraphQLResponse T E) → (List E → List TError) →
      AndThenArg T E TData TError

/-- Operation `andThen(config)`: on `Ok(data)`, the plain form returns
`await config(data)` unchanged, and the `action`/`mapErr` form awaits
`config.action(data)` and matches it — `ok` data is re-wrapped with
`ok`, an error sequence is passed through `config.mapErr` and wrapped
with `err`; on `Err`, the source resolves immediately to
`err(errors)` with its own error array, ignoring the argument. -/
def andThen {T E TData TError : Type} (config : AndThenArg T E TData TError) :
    GraphQLResponse TData TError → GraphQLResponse T TError
  | .Ok d =>
    match config with
    | .fn action => action d
    | .mapCfg action mapErrFn =>
        matchWith (fun d2 => ok d2) (fun errors => err (.inr (mapErrFn errors))) (action d)
  | .Err es => err (.inr es)

/-- Result of `await response.json()` followed by destructuring
`const { data, errors } = ...`: `none` models a JSON parse failure
(the `catch` path), `some (data, errors)` a successful parse where a
missing field destructures to `undefined`. -/
abbrev ParsedBody : Type := Option (JSValue × JSValue)

/-- Function `getResponseJson` from the source: returns the
`{ data, errors }` pair when `data || errors` is truthy, and `null`
(here `none`) when both are falsy or the body failed to parse. -/
def getResponseJson (body : ParsedBody) : Option (JSValue × JSValue) :=
  match body with
  | none => none
  | some (data, errors) =>
      if data.truthy || errors.truthy then some (data, errors) else none

/-- The part of the HTTP `Response` object the classification tail of
`query` reads: the status line (only used for the fatal error message
and as input to the `onHttpError` hook) and the parsed body. -/
structure ResponseModel where
  status : Nat
  statusText : String
  body : ParsedBody
deriving Repr

/-- The hook part of `GraphQLClientConfig` that the classification
tail of `query` consumes. `onHttpError` receives the response (the
request argument is not inspected by any claim and the hook may close
over it); both hooks return a dynamic `TError | TError[] | void`
value, modelled as a `JSValue` (with `undefined` for `void`). The
pipeline is dynamically typed throughout, so `TError = JSValue` here. -/
structure PipelineConfig where
  onHttpError : Option (ResponseModel → JSValue)
  onError : Option (List JSValue → JSValue)

/-- The two `throw new Error(...)` sites in `query`: the HTTP failure
(no usable envelope and no `onHttpError` hook) carrying the status and
status text, and the final neither-data-nor-errors site. -/
inductive QueryFatal where
  | httpError : Nat → String → QueryFatal
  | neitherField : QueryFatal
deriving Repr, DecidableEq

/-- The message string of each fatal error, as the source builds it. -/
def fatalMessage : QueryFatal → String
  | .httpError status statusText =>
      "[fetch-gql] HTTP request failed with status: " ++ toString status
        ++ " (" ++ statusText ++ ")"
  | .neitherField =>
      "[fetch-gql] Expected properties data or errors in the response body. Neither was available."

/-- Normalization `Array.isArray(v) ? v : [v]` applied to a dynamic
value, as done inline at the two `onError` invocation sites. -/
def jsToErrList (v : JSValue) : List JSValue :=
  match v with
  | .arr xs => xs
  | v => [v]

/-- Conversion of a dynamic `TError | TError[]` value into the
`err` argument: an array is the sequence case, anything else the
single-error case (this is exactly the `Array.isArray` test inside
`err` as it acts on a dynamic value). -/
def jsErrInput (v : JSValue) : ErrInput JSValue :=
  match v with
  | .arr xs => .inr xs
  | v => .inl v

/-- Classification tail of `query` from the source, beginning at
`const responseBody = await getResponseJson(response)` (request
construction and `fetch` itself are the out-of-scope transport steps;
the response they produced is the input here). Faithful transcription:

- `if (!responseBody)`: with no `onHttpError` hook, throw the HTTP
  fatal error; with a hook, compute `mappedHttpErrors`, return
  `err(mappedHttpErrors)` directly when no `onError` hook exists,
  otherwise normalize to an array, feed it to `onError` and return
  `err(mapped ? mapped : mappedHttpErrors)`.
- `if (data) return ok(data)` — a truthiness test.
- `if (errors)`: with no `onError` hook return `err(errors)`;
  otherwise normalize, feed to `onError`, and return
  `err(mappedError ? mappedError : errs)`.
- final `throw` of the neither-field error. -/
def query (config : PipelineConfig) (response : ResponseModel) :
    Except QueryFatal (GraphQLResponse JSValue JSValue) :=
  match getResponseJson response.body with
  | none =>
    match config.onHttpError with
    | none => .error (.httpError response.status response.statusText)
    | some httpHook =>
      let mappedHttpErrors := httpHook response
      match config.onError with
      | none => .ok (err (jsErrInput mappedHttpErrors))
      | some errorHook =>
        let mappedHttpErrorsArr := jsToErrList mappedHttpErrors
        let mappedErrorHandlerErrors := errorHook mappedHttpErrorsArr
        .ok (err (jsErrInput
          (if mappedErrorHandlerErrors.truthy then mappedErrorHandlerErrors
           else .arr mappedHttpErrorsArr)))
  | some (data, errors) =>
    if data.truthy then .ok (ok data)
    else if errors.truthy then
      match config.onError with
      | none => .ok (err (jsErrInput errors))
      | some errorHook =>
        let errs := jsToErrList errors
        let mappedError := errorHook errs
        .ok (err (jsErrInput
          (if mappedError.truthy then mappedError else .arr errs)))
    else .error .neitherField

/-- C4: `andThen` on an `Err` receiver, under either calling convention,
never invokes the supplied action or `mapErr` (the result is the same
for any two arguments) and resolves to an `Err` container carrying the
identical error sequence. -/
theorem C4_short_circuit {T E TData TError : Type} (es : List TError)
    (cfg cfg' : AndThenArg T E TData TError) :
    andThen cfg (.Err es) = .Err es ∧
    andThen cfg (.Err es) = andThen cfg' (.Err es) := by
  constructor
  · simp [andThen, err, normalizeErr]
  · rfl

/-- C5: `andThen` in the cross-error-type form on `Ok(d)`: if the
dependent result is `Err(es)` the final container is `Err(mapErr(es))`;
if the dependent result is `Ok(d2)` the final container is `Ok(d2)`. -/
theorem C5_mapErr_applied {T E TData TError : Type}
    (action : TData → GraphQLResponse T E) (mapErrFn : List E → List TError) (d : TData) :
    (∀ es, action d = .Err es →
      andThen (.mapCfg action mapErrFn) (.Ok d) = .Err (mapErrFn es)) ∧
    (∀ d2, action d = .Ok d2 →
      andThen (.mapCfg action mapErrFn) (.Ok d) = .Ok d2) := by
  constructor
  · intro es h
    simp [andThen, h, matchWith, err, normalizeErr]
  · intro d2 h
    simp [andThen, h, matchWith, ok]

/-- Witness for C5 at a concrete dependent action over `Nat`, in both
the erring and the succeeding case. -/
theorem C5_mapErr_applied_witness :
    andThen (.mapCfg (fun _ : Nat => (GraphQLResponse.Err [5] : GraphQLResponse Nat Nat))
        (List.map (fun e => e + 1))) (.Ok 0) = .Err [6] ∧
    andThen (.mapCfg (fun _ : Nat => (GraphQLResponse.Ok 7 : GraphQLResponse Nat Nat))
        (List.map (fun e => e + 1))) (.Ok 0) = .Ok 7 :=
  ⟨(C5_mapErr_applied (fun _ : Nat => (GraphQLResponse.Err [5] : GraphQLResponse Nat Nat))
      (List.map (fun e => e + 1)) 0).1 [5] rfl,
   (C5_mapErr_applied (fun _ : Nat => (GraphQLResponse.Ok 7 : GraphQLResponse Nat Nat))
      (List.map (fun e => e + 1)) 0).2 7 rfl⟩

/-- C6: `mapOk(f)` on `Ok(d)` yields `Ok(f(d))`; on `Err(es)` it yields
an `Err` container with the same error sequence, and the result does
not depend on `f` (identity on errors, mapping function never used). -/
theorem C6_mapOk {TData TError T : Type} (f g : TData → T) (d : TData) (es : List TError) :
    (mapOk f (.Ok d) : GraphQLResponse T TError) = .Ok (f d) ∧
    (mapOk f (.Err es) : GraphQLResponse T TError) = .Err es ∧
    (mapOk f (.Err es) : GraphQLResponse T TError) = mapOk g (.Err es) := by
  refine ⟨rfl, ?_, rfl⟩
  simp [mapOk, err, normalizeErr]

/-- C10: `mapErr(f)` on `Err(es)` normalizes the result of `f` through
the `err` constructor: a single non-sequence value `v` produces
`Err([v])`, a sequence is used as-is. -/
theorem C10_mapErr_normalizes {TData TError T : Type}
    (f : List TError → ErrInput T) (es : List TError) :
    (∀ v, f es = .inl v →
      (mapErr f (.Err es) : GraphQLResponse TData T) = .Err [v]) ∧
    (∀ l, f es = .inr l →
      (mapErr f (.Err es) : GraphQLResponse TData T) = .Err l) := by
  constructor
  · intro v h
    simp [mapErr, h, err, normalizeErr]
  · intro l h
    simp [mapErr, h, err, normalizeErr]

/-- Witness for C10 at concrete mapping functions over `Nat`, one
returning a single value, one returning a sequence. -/
theorem C10_mapErr_normalizes_witness :
    (mapErr (fun _ => (Sum.inl 9 : ErrInput Nat)) (.Err [1, 2]) :
      GraphQLResponse Nat Nat) = .Err [9] ∧
    (mapErr (fun _ => (Sum.inr [3, 4] : ErrInput Nat)) (.Err [1, 2]) :
      GraphQLResponse Nat Nat) = .Err [3, 4] :=
  ⟨(@C10_mapErr_normalizes Nat Nat Nat (fun _ => (Sum.inl 9 : ErrInput Nat)) [1, 2]).1 9 rfl,
   (@C10_mapErr_normalizes Nat Nat Nat (fun _ => (Sum.inr [3, 4] : ErrInput Nat)) [1, 2]).2
     [3, 4] rfl⟩

/-- C1 counterexample: a response body with `data` present but `null`
and a nonempty `errors` array. The claim says the pipeline returns
`Ok(null)`; the source tests `if (data)` with JavaScript truthiness,
so `null` data falls through to the errors branch and the call
resolves to an `Err` container instead. -/
theorem C1_counterexample :
    query ⟨none, none⟩ ⟨200, "OK", some (JSValue.null, JSValue.arr [JSValue.str "boom"])⟩
      = .ok (GraphQLResponse.Err [JSValue.str "boom"]) ∧
    query ⟨none, none⟩ ⟨200, "OK", some (JSValue.null, JSValue.arr [JSValue.str "boom"])⟩
      ≠ .ok (ok JSValue.null) := by
  refine ⟨rfl, fun h => ?_⟩
  rw [show query ⟨none, none⟩
        ⟨200, "OK", some (JSValue.null, JSValue.arr [JSValue.str "boom"])⟩
      = .ok (GraphQLResponse.Err [JSValue.str "boom"]) from rfl] at h
  injection h with h
  exact GraphQLResponse.noConfusion h

/-- C1 amended: for every parsed response envelope whose `data` field
is present and truthy, the pipeline returns `Ok(data)` regardless of
the `errors` field; a present but falsy `data` value (null, false, 0,
empty string) does not take the `Ok` branch. -/
theorem C1_data_truthy_ok (config : PipelineConfig) (status : Nat) (statusText : String)
    (data errors : JSValue) (h : data.truthy = true) :
    query config ⟨status, statusText, some (data, errors)⟩ = .ok (ok data) := by
  simp [query, getResponseJson, h]

/-- Witness for C1 at a concrete truthy `data` object accompanied by a
nonempty `errors` array. -/
theorem C1_data_truthy_ok_witness :
    (JSValue.obj [("id", JSValue.num 1)]).truthy = true ∧
    query ⟨none, none⟩ ⟨500, "Internal Server Error",
        some (JSValue.obj [("id", JSValue.num 1)], JSValue.arr [JSValue.str "e"])⟩
      = .ok (ok (JSValue.obj [("id", JSValue.num 1)])) :=
  ⟨rfl, C1_data_truthy_ok ⟨none, none⟩ 500 "Internal Server Error"
    (JSValue.obj [("id", JSValue.num 1)]) (JSValue.arr [JSValue.str "e"]) rfl⟩

/-- C7: when the response yields no usable envelope (parse failure, or
neither field truthy) and no `onHttpError` hook is configured, the
pipeline does not return a container: it throws the unrecoverable
HTTP error, whose message names the status and status text. -/
theorem C7_fatal_without_hook (config : PipelineConfig) (resp : ResponseModel)
    (hHook : config.onHttpError = none) (hBody : getResponseJson resp.body = none) :
    query config resp = .error (.httpError resp.status resp.statusText) ∧
    fatalMessage (.httpError resp.status resp.statusText)
      = "[fetch-gql] HTTP request failed with status: " ++ toString resp.status
        ++ " (" ++ resp.statusText ++ ")" := by
  constructor
  · simp [query, hBody, hHook]
  · rfl

/-- Witness for C7 at a concrete 500 response whose body is not JSON. -/
theorem C7_fatal_without_hook_witness :
    (⟨none, some (fun es => JSValue.arr es)⟩ : PipelineConfig).onHttpError = none ∧
    getResponseJson (none : ParsedBody) = none ∧
    query ⟨none, some (fun es => JSValue.arr es)⟩ ⟨500, "Internal Server Error", none⟩
      = .error (.httpError 500 "Internal Server Error") :=
  ⟨rfl, rfl,
    (C7_fatal_without_hook ⟨none, some (fun es => JSValue.arr es)⟩
      ⟨500, "Internal Server Error", none⟩ rfl rfl).1⟩

/-- Helper: `err` applied to a dynamic value normalizes it with
`Array.isArray`, which is exactly `jsToErrList`. -/
theorem err_jsErrInput (v : JSValue) :
    (err (jsErrInput v) : GraphQLResponse JSValue JSValue) = .Err (jsToErrList v) := by
  cases v <;> rfl

/-- Helper: normalizing an array value yields its element list. -/
theorem jsToErrList_arr (xs : List JSValue) : jsToErrList (.arr xs) = xs := rfl

/-- Helper: a non-null envelope returned by `getResponseJson` has a
truthy `data` field or a truthy `errors` field. -/
theorem truthy_of_getResponseJson (body : ParsedBody) (data errors : JSValue)
    (h : getResponseJson body = some (data, errors)) :
    (data.truthy || errors.truthy) = true := by
  cases body with
  | none => simp [getResponseJson] at h
  | some p =>
    obtain ⟨d0, e0⟩ := p
    simp only [getResponseJson] at h
    split at h
    · next hcond =>
      injection h with h
      injection h with h1 h2
      subst h1; subst h2
      exact hcond
    · cases h

/-- Helper: whenever `getResponseJson` yields an envelope, `query`
resolves to an ordinary container (the `Except.ok` constructor),
via either the data branch or the errors branch. -/
theorem query_ok_of_envelope (config : PipelineConfig) (resp : ResponseModel)
    (data errors : JSValue) (h : getResponseJson resp.body = some (data, errors)) :
    ∃ r, query config resp = .ok r := by
  have htruthy := truthy_of_getResponseJson resp.body data errors h
  by_cases hd : data.truthy = true
  · exact ⟨ok data, by simp [query, h, hd]⟩
  · have he : errors.truthy = true := by
      cases he0 : errors.truthy with
      | true => rfl
      | false =>
        rw [he0, Bool.or_false] at htruthy
        exact absurd htruthy hd
    cases hE : config.onError with
    | none =>
      exact ⟨err (jsErrInput errors), by simp [query, h, hd, he, hE]⟩
    | some errorHook =>
      refine ⟨err (jsErrInput
        (if (errorHook (jsToErrList errors)).truthy then errorHook (jsToErrList errors)
         else .arr (jsToErrList errors))), ?_⟩
      simp [query, h, hd, he, hE]

/-- C9: the final `throw` of `query` (the neither-data-nor-errors
error) is unreachable. Whenever `getResponseJson` returns a non-null
envelope, at least one of its fields is truthy, so the pipeline always
resolves from the `Ok` branch or the `Err` branch: the result is an
ordinary container, never the neither-field fatal error. -/
theorem C9_neither_unreachable (config : PipelineConfig) (resp : ResponseModel)
    (env : JSValue × JSValue) (h : getResponseJson resp.body = some env) :
    (∃ r, query config resp = .ok r) ∧
    query config resp ≠ .error QueryFatal.neitherField := by
  obtain ⟨data, errors⟩ := env
  obtain ⟨r, hr⟩ := query_ok_of_envelope config resp data errors h
  exact ⟨⟨r, hr⟩, by simp [hr]⟩

/-- Witness for C9 at a concrete errors-only envelope with an
`onError` hook configured. -/
theorem C9_neither_unreachable_witness :
    getResponseJson (some (JSValue.undefined, JSValue.arr [JSValue.str "e1"]))
      = some (JSValue.undefined, JSValue.arr [JSValue.str "e1"]) ∧
    query ⟨none, some (fun _ => JSValue.undefined)⟩
        ⟨200, "OK", some (JSValue.undefined, JSValue.arr [JSValue.str "e1"])⟩
      ≠ .error QueryFatal.neitherField :=
  ⟨rfl,
    (C9_neither_unreachable ⟨none, some (fun _ => JSValue.undefined)⟩
      ⟨200, "OK", some (JSValue.undefined, JSValue.arr [JSValue.str "e1"])⟩
      (JSValue.undefined, JSValue.arr [JSValue.str "e1"]) rfl).2⟩

/-- C2 counterexample: an `onError` hook that returns an empty array.
The claim says an empty hook result keeps the original error sequence;
the source tests `mappedError ? mappedError : errs`, and a JavaScript
empty array is truthy, so the hook result replaces the original
sequence and the final `Err` payload is empty. -/
theorem C2_counterexample :
    query ⟨none, some (fun _ => JSValue.arr [])⟩
        ⟨200, "OK", some (JSValue.undefined, JSValue.arr [JSValue.str "e1"])⟩
      = .ok (GraphQLResponse.Err []) ∧
    query ⟨none, some (fun _ => JSValue.arr [])⟩
        ⟨200, "OK", some (JSValue.undefined, JSValue.arr [JSValue.str "e1"])⟩
      ≠ .ok (GraphQLResponse.Err [JSValue.str "e1"]) := by
  refine ⟨rfl, fun h => ?_⟩
  rw [show query ⟨none, some (fun _ => JSValue.arr [])⟩
        ⟨200, "OK", some (JSValue.undefined, JSValue.arr [JSValue.str "e1"])⟩
      = .ok (GraphQLResponse.Err []) from rfl] at h
  injection h with h
  injection h with h
  cases h

/-- C2 amended: for every configured `onError` hook and error sequence
reaching it (from the GraphQL errors branch or from `onHttpError`
output): when the hook result is falsy (absent/undefined, null, false,
0, empty string) the pre-remapping sequence is kept; when it is truthy
— including an empty array — the hook result, normalized to a
sequence, replaces it. -/
theorem C2_hook_override (hook : List JSValue → JSValue) :
    (∀ (httpHookOpt : Option (ResponseModel → JSValue)) (status : Nat) (st : String)
        (data errors : JSValue), data.truthy = false → errors.truthy = true →
      (((hook (jsToErrList errors)).truthy = false →
        query ⟨httpHookOpt, some hook⟩ ⟨status, st, some (data, errors)⟩
          = .ok (.Err (jsToErrList errors))) ∧
       ((hook (jsToErrList errors)).truthy = true →
        query ⟨httpHookOpt, some hook⟩ ⟨status, st, some (data, errors)⟩
          = .ok (.Err (jsToErrList (hook (jsToErrList errors))))))) ∧
    (∀ (httpHook : ResponseModel → JSValue) (resp : ResponseModel),
      getResponseJson resp.body = none →
      (((hook (jsToErrList (httpHook resp))).truthy = false →
        query ⟨some httpHook, some hook⟩ resp
          = .ok (.Err (jsToErrList (httpHook resp)))) ∧
       ((hook (jsToErrList (httpHook resp))).truthy = true →
        query ⟨some httpHook, some hook⟩ resp
          = .ok (.Err (jsToErrList (hook (jsToErrList (httpHook resp)))))))) := by
  constructor
  · intro httpHookOpt status st data errors hd he
    constructor
    · intro hm
      simp [query, getResponseJson, hd, he, hm, err_jsErrInput, jsToErrList_arr]
    · intro hm
      simp [query, getResponseJson, hd, he, hm, err_jsErrInput]
  · intro httpHook resp hb
    constructor
    · intro hm
      simp [query, hb, hm, err_jsErrInput, jsToErrList_arr]
    · intro hm
      simp [query, hb, hm, err_jsErrInput]

/-- Witness for C2: a hook returning `undefined` keeps the original
errors; a hook returning a single string replaces and normalizes. -/
theorem C2_hook_override_witness :
    query ⟨none, some (fun _ => JSValue.undefined)⟩
        ⟨200, "OK", some (JSValue.undefined, JSValue.arr [JSValue.str "e1"])⟩
      = .ok (.Err [JSValue.str "e1"]) ∧
    query ⟨none, some (fun _ => JSValue.str "remapped")⟩
        ⟨200, "OK", some (JSValue.undefined, JSValue.arr [JSValue.str "e1"])⟩
      = .ok (.Err [JSValue.str "remapped"]) :=
  ⟨((C2_hook_override (fun _ => JSValue.undefined)).1 none 200 "OK"
      JSValue.undefined (JSValue.arr [JSValue.str "e1"]) rfl rfl).1 rfl,
   ((C2_hook_override (fun _ => JSValue.str "remapped")).1 none 200 "OK"
      JSValue.undefined (JSValue.arr [JSValue.str "e1"]) rfl rfl).2 rfl⟩

/-- C8: classification depends only on the parsed body, never on the
HTTP status code. With a usable envelope the result is identical for
any two status lines and is an ordinary container; without one, the
call takes the HTTP-error path — fatal when no `onHttpError` hook is
configured, an `Err` container when one is. -/
theorem C8_status_independent (config : PipelineConfig) (body : ParsedBody)
    (s1 s2 : Nat) (st1 st2 : String) :
    ((getResponseJson body).isSome = true →
      query config ⟨s1, st1, body⟩ = query config ⟨s2, st2, body⟩ ∧
      ∃ r, query config ⟨s1, st1, body⟩ = .ok r) ∧
    (getResponseJson body = none → config.onHttpError = none →
      query config ⟨s1, st1, body⟩ = .error (.httpError s1 st1)) ∧
    (∀ httpHook, getResponseJson body = none → config.onHttpError = some httpHook →
      ∃ es, query config ⟨s1, st1, body⟩ = .ok (GraphQLResponse.Err es)) := by
  refine ⟨?_, ?_, ?_⟩
  · intro hs
    obtain ⟨env, h⟩ := Option.isSome_iff_exists.mp hs
    obtain ⟨data, errors⟩ := env
    constructor
    · simp [query, h]
    · exact query_ok_of_envelope config ⟨s1, st1, body⟩ data errors h
  · intro hb hh
    simp [query, hb, hh]
  · intro httpHook hb hh
    cases hE : config.onError with
    | none =>
      exact ⟨jsToErrList (httpHook ⟨s1, st1, body⟩),
        by simp [query, hb, hh, hE, err_jsErrInput]⟩
    | some errorHook =>
      refine ⟨jsToErrList
        (if (errorHook (jsToErrList (httpHook ⟨s1, st1, body⟩))).truthy
         then errorHook (jsToErrList (httpHook ⟨s1, st1, body⟩))
         else .arr (jsToErrList (httpHook ⟨s1, st1, body⟩))), ?_⟩
      simp [query, hb, hh, hE, err_jsErrInput]

/-- Witness for C8 at a concrete errors-only body under two different
status lines, and a concrete parse failure without a hook. -/
theorem C8_status_independent_witness :
    (getResponseJson (some (JSValue.undefined, JSValue.arr [JSValue.str "e1"]))).isSome
      = true ∧
    query ⟨none, none⟩ ⟨200, "OK", some (JSValue.undefined, JSValue.arr [JSValue.str "e1"])⟩
      = query ⟨none, none⟩
          ⟨500, "Internal Server Error",
            some (JSValue.undefined, JSValue.arr [JSValue.str "e1"])⟩ ∧
    query ⟨none, none⟩ ⟨404, "Not Found", none⟩ = .error (.httpError 404 "Not Found") :=
  ⟨rfl,
   ((C8_status_independent ⟨none, none⟩
      (some (JSValue.undefined, JSValue.arr [JSValue.str "e1"])) 200 500 "OK"
      "Internal Server Error").1 rfl).1,
   (C8_status_independent ⟨none, none⟩ none 404 0 "Not Found" "").2.1 rfl rfl⟩

/-- Helper: a nonempty list has length at least one. -/
theorem one_le_length_of_ne_nil {α : Type} {l : List α} (h : l ≠ []) : 1 ≤ l.length := by
  cases l with
  | nil => exact absurd rfl h
  | cons x xs => simp

/-- Helper: a non-null envelope returned by `getResponseJson` came from
a parsed body holding exactly that pair. -/
theorem body_of_getResponseJson (body : ParsedBody) (data errors : JSValue)
    (h : getResponseJson body = some (data, errors)) : body = some (data, errors) := by
  cases body with
  | none => simp [getResponseJson] at h
  | some p =>
    obtain ⟨d0, e0⟩ := p
    simp only [getResponseJson] at h
    split at h
    · exact congrArg some (Option.some.inj h)
    · cases h

/-- Condition on an `andThen` argument under which chaining cannot
introduce an empty error sequence on an `Ok` receiver: the dependent
action only errs with nonempty sequences (plain form), respectively
the `mapErr` field maps every reachable dependent error sequence to a
nonempty one (cross-error-type form). -/
def argKeepsErrors {T E TData TError : Type} : AndThenArg T E TData TError → Prop
  | .fn action => ∀ d es, action d = .Err es → es ≠ []
  | .mapCfg action mapErrFn => ∀ d es, action d = .Err es → mapErrFn es ≠ []

/-- C3 counterexample: `Err` sequences can be empty. The `err` factory
keeps a supplied empty array as-is, and the pipeline does the same on
a response body whose `errors` field is the (truthy) empty array. -/
theorem C3_counterexample :
    (err (.inr ([] : List JSValue)) : GraphQLResponse JSValue JSValue)
      = .Err [] ∧
    query ⟨none, none⟩ ⟨200, "OK", some (JSValue.undefined, JSValue.arr [])⟩
      = .ok (GraphQLResponse.Err []) ∧
    ([] : List JSValue).length = 0 :=
  ⟨rfl, rfl, rfl⟩

/-- C3 amended: `Err` sequences have length at least 1 provided no
empty sequence is supplied as an error payload: `err` on a single
error always yields a one-element sequence, `err` on a nonempty
sequence keeps it, `mapOk` and `andThen` preserve nonemptiness (the
latter when its argument does), `mapErr` yields a nonempty sequence
when its function does, and the pipeline yields a nonempty `Err` when
the server's `errors` value and the configured hooks normalize to
nonempty sequences; an empty supplied sequence, however, produces an
empty `Err`. -/
theorem C3_err_nonempty {T E TData TError : Type} :
    (∀ (e : TError) (es : List TError),
      (err (.inl e) : GraphQLResponse TData TError) = .Err es → 1 ≤ es.length) ∧
    (∀ (l es : List TError), l ≠ [] →
      (err (.inr l) : GraphQLResponse TData TError) = .Err es → 1 ≤ es.length) ∧
    (∀ (f : TData → T) (r : GraphQLResponse TData TError) (es : List TError),
      (∀ es0, r = .Err es0 → 1 ≤ es0.length) →
      mapOk f r = .Err es → 1 ≤ es.length) ∧
    (∀ (g : List TError → ErrInput T) (r : GraphQLResponse TData TError) (es : List T),
      (∀ l, normalizeErr (g l) ≠ []) →
      mapErr g r = .Err es → 1 ≤ es.length) ∧
    (∀ (cfg : AndThenArg T E TData TError) (r : GraphQLResponse TData TError)
        (es : List TError),
      (∀ es0, r = .Err es0 → 1 ≤ es0.length) → argKeepsErrors cfg →
      andThen cfg r = .Err es → 1 ≤ es.length) ∧
    (∀ (config : PipelineConfig) (resp : ResponseModel) (es : List JSValue),
      (∀ httpHook, config.onHttpError = some httpHook →
        jsToErrList (httpHook resp) ≠ []) →
      (∀ errorHook l, config.onError = some errorHook →
        (errorHook l).truthy = true → jsToErrList (errorHook l) ≠ []) →
      (∀ data errors, resp.body = some (data, errors) → data.truthy = false →
        errors.truthy = true → jsToErrList errors ≠ []) →
      query config resp = .ok (.Err es) → 1 ≤ es.length) := by
  refine ⟨?_, ?_, ?_, ?_, ?_, ?_⟩
  · intro e es h
    injection h with h
    subst h
    simp [normalizeErr]
  · intro l es hl h
    injection h with h
    subst h
    exact one_le_length_of_ne_nil hl
  · intro f r es hr h
    cases r with
    | Ok d => cases h
    | Err es0 =>
      injection h with h
      subst h
      exact hr es0 rfl
  · intro g r es hg h
    cases r with
    | Ok d => cases h
    | Err es0 =>
      injection h with h
      subst h
      exact one_le_length_of_ne_nil (hg es0)
  · intro cfg r es hr hcfg h
    cases r with
    | Err es0 =>
      injection h with h
      subst h
      exact hr es0 rfl
    | Ok d =>
      cases cfg with
      | fn action =>
        exact one_le_length_of_ne_nil (hcfg d es h)
      | mapCfg action mapErrFn =>
        cases ha : action d with
        | Ok d2 => rw [show andThen (.mapCfg action mapErrFn) (.Ok d)
            = matchWith (fun d2 => ok d2)
                (fun errors => err (.inr (mapErrFn errors))) (action d) from rfl,
              ha] at h; cases h
        | Err es1 =>
          rw [show andThen (.mapCfg action mapErrFn) (.Ok d)
            = matchWith (fun d2 => ok d2)
                (fun errors => err (.inr (mapErrFn errors))) (action d) from rfl,
              ha] at h
          injection h with h
          subst h
          exact one_le_length_of_ne_nil (hcfg d es1 ha)
  · intro config resp es hHttp hErr hServer h
    cases hgr : getResponseJson resp.body with
    | none =>
      cases hh : config.onHttpError with
      | none => simp [query, hgr, hh] at h
      | some httpHook =>
        cases hE : config.onError with
        | none =>
          simp only [query, hgr, hh, hE, err_jsErrInput, Except.ok.injEq,
            GraphQLResponse.Err.injEq] at h
          subst h
          exact one_le_length_of_ne_nil (hHttp httpHook hh)
        | some errorHook =>
          by_cases hm : (errorHook (jsToErrList (httpHook resp))).truthy = true
          · simp only [query, hgr, hh, hE, hm, if_true, err_jsErrInput,
              Except.ok.injEq, GraphQLResponse.Err.injEq] at h
            subst h
            exact one_le_length_of_ne_nil (hErr errorHook _ hE hm)
          · simp only [query, hgr, hh, hE, hm, if_false, err_jsErrInput,
              jsToErrList_arr, Except.ok.injEq, GraphQLResponse.Err.injEq] at h
            subst h
            exact one_le_length_of_ne_nil (hHttp httpHook hh)
    | some env =>
      obtain ⟨data, errors⟩ := env
      have hbody := body_of_getResponseJson resp.body data errors hgr
      have htruthy := truthy_of_getResponseJson resp.body data errors hgr
      by_cases hd : data.truthy = true
      · simp [query, hgr, hd, ok] at h
      · have hd0 : data.truthy = false := by
          cases hx : data.truthy with
          | true => exact absurd hx hd
          | false => rfl
        have he : errors.truthy = true := by
          cases he0 : errors.truthy with
          | true => rfl
          | false =>
            rw [he0, Bool.or_false] at htruthy
            exact absurd htruthy hd
        cases hE : config.onError with
        | none =>
          simp only [query, hgr, hd0, he, hE, Bool.false_eq_true, if_false, if_true,
            err_jsErrInput, Except.ok.injEq, GraphQLResponse.Err.injEq] at h
          subst h
          exact one_le_length_of_ne_nil (hServer data errors hbody hd0 he)
        | some errorHook =>
          by_cases hm : (errorHook (jsToErrList errors)).truthy = true
          · simp only [query, hgr, hd0, he, hE, hm, Bool.false_eq_true, if_false,
              if_true, err_jsErrInput, Except.ok.injEq, GraphQLResponse.Err.injEq] at h
            subst h
            exact one_le_length_of_ne_nil (hErr errorHook _ hE hm)
          · simp only [query, hgr, hd0, he, hE, hm, Bool.false_eq_true, if_false,
              if_true, err_jsErrInput, jsToErrList_arr, Except.ok.injEq,
              GraphQLResponse.Err.injEq] at h
            subst h
            exact one_le_length_of_ne_nil (hServer data errors hbody hd0 he)

/-- Witness for C3: the single-error factory at a concrete error, and
the pipeline on a concrete one-element `errors` body with no hooks,
both produce one-element sequences. -/
theorem C3_err_nonempty_witness :
    1 ≤ ([5] : List Nat).length ∧ 1 ≤ ([JSValue.str "e1"] : List JSValue).length := by
  constructor
  · exact (@C3_err_nonempty Nat Nat Nat Nat).1 5 [5] rfl
  · refine (@C3_err_nonempty Nat Nat Nat Nat).2.2.2.2.2 ⟨none, none⟩
      ⟨200, "OK", some (JSValue.undefined, JSValue.arr [JSValue.str "e1"])⟩
      [JSValue.str "e1"] ?_ ?_ ?_ rfl
    · intro httpHook hh
      cases hh
    · intro errorHook l hh
      cases hh
    · intro data errors hb _ _
      injection hb with hb
      injection hb with h1 h2
      subst h2
      simp [jsToErrList]

end FetchGql
